import Mathlib

/-!
Shallow embedding of the OmniLogic Local water-heater slice:
`custom_components/omnilogic_local/helpers/temperature.py` and
`custom_components/omnilogic_local/water_heater.py`.

Temperatures are modelled as rationals (`ℚ`); the Python `int()`
truncation is explicit (`pyInt`).  Fallible lookups are `Option`.  The
external async API call is modelled by passing its outcome (`Except`) as
an input and recording the commands issued plus the entity state after
the call, so that an exception raised by the call visibly skips the
statements after it.
-/

/-- Home Assistant `UnitOfTemperature` constants, restricted to the two
values this slice uses. -/
inductive TempUnit where
  | celsius
  | fahrenheit
  deriving DecidableEq, Repr

/-- `MSPSystem`: system-wide configuration; only the `units` field is read
by this slice ("Metric" or other, typically "Standard"). -/
structure MSPSystem where
  units : String
  deriving DecidableEq, Repr

/-- `is_metric_system` from `helpers/temperature.py`:
`return system_config.units == "Metric"`. -/
def is_metric_system (system_config : MSPSystem) : Bool :=
  system_config.units == "Metric"

/-- `get_unit_from_system` from `helpers/temperature.py`: Celsius for
metric systems, Fahrenheit otherwise. -/
def get_unit_from_system (system_config : MSPSystem) : TempUnit :=
  if is_metric_system system_config then TempUnit.celsius else TempUnit.fahrenheit

/-- `INVALID_TEMP_VALUES` from `helpers/temperature.py`: sentinel values
denoting an unavailable/invalid temperature reading. -/
def INVALID_TEMP_VALUES : List ℚ := [-1, 255, 65535]

/-- `validate_temperature` from `helpers/temperature.py`:
`if value is None or value in INVALID_TEMP_VALUES: return None`, else
`float(value)` (numerically the identity in this model). -/
def validate_temperature (value : Option ℚ) : Option ℚ :=
  match value with
  | none => none
  | some v => if v ∈ INVALID_TEMP_VALUES then none else some v

/-- `TelemetryBoW`: body-of-water telemetry; only `water_temp` is read by
the heater entity. -/
structure TelemetryBoW where
  water_temp : Option ℚ
  deriving DecidableEq, Repr

/-- `MSPVirtualHeater`: virtual-heater config fields read by the entity
(`min_temp`, `max_temp`, `solar_set_point`), Fahrenheit by hardware
convention. -/
structure MSPVirtualHeater where
  min_temp : ℚ
  max_temp : ℚ
  solar_set_point : ℚ
  deriving DecidableEq, Repr

/-- `TelemetryVirtualHeater`: live virtual-heater state
(`current_set_point`, `enabled`).  The Python code writes `enabled` as the
strings "yes"/"no", which the telemetry model coerces to a boolean; we
model the boolean. -/
structure TelemetryVirtualHeater where
  current_set_point : Option ℚ
  enabled : Bool
  deriving DecidableEq, Repr

/-- `EntityIndexHeater` from `types/entity_index.py`: config + telemetry
for a virtual heater. -/
structure EntityIndexHeater where
  msp_config : MSPVirtualHeater
  telemetry : TelemetryVirtualHeater
  deriving DecidableEq, Repr

/-- Heater-equipment operating state; the entity only calls `.pretty()`
(a human-readable rendering supplied by the external client library), so
the state is modelled by that rendering. -/
structure HeaterState where
  pretty : String
  deriving DecidableEq, Repr

/-- `MSPHeaterEquip`: heater-equipment config fields read by the entity. -/
structure MSPHeaterEquip where
  name : String
  enabled : Bool
  bow_id : Int
  deriving DecidableEq, Repr

/-- Heater-equipment telemetry fields read by the entity. -/
structure TelemetryHeaterEquip where
  state : HeaterState
  temp : ℚ
  deriving DecidableEq, Repr

/-- `EntityIndexHeaterEquip` from `types/entity_index.py`. -/
structure EntityIndexHeaterEquip where
  msp_config : MSPHeaterEquip
  telemetry : TelemetryHeaterEquip
  deriving DecidableEq, Repr

/-- Values stored in a Home Assistant attribute dictionary by this slice:
strings, ids, booleans and numbers. -/
inductive AttrValue where
  | str (s : String)
  | int (n : Int)
  | num (q : ℚ)
  | bool (b : Bool)
  deriving DecidableEq, Repr

/-- A Python `dict[str, ...]` as an insertion-ordered association list. -/
abbrev PyDict : Type := List (String × AttrValue)

/-- Python `d[k] = v` on an insertion-ordered dict: overwrite in place if
the key exists, else append. -/
def dictUpdate (d : PyDict) (k : String) (v : AttrValue) : PyDict :=
  if d.any (fun p => p.1 == k) then
    d.map (fun p => if p.1 == k then (k, v) else p)
  else
    d ++ [(k, v)]

/-- Python `d | e` on dicts: keys of `d` in order (values overridden by
`e` where present), then the new keys of `e` in order. -/
def dictMerge (d e : PyDict) : PyDict :=
  e.foldl (fun acc p => dictUpdate acc p.1 p.2) d

/-- Python `int()`: truncation toward zero. -/
def pyInt (q : ℚ) : ℤ :=
  if 0 ≤ q then ⌊q⌋ else ⌈q⌉

/-- The heater entity state: `self.data` (config + telemetry of the
virtual heater), the ids wired in by `__init__`/the base entity, the
coordinator-owned records for the associated heater equipment
(`self.coordinator.data[system_id]`, indexed by ids collected from that
same mapping at setup), the system-wide configuration held by the
coordinator (present in the data model; the entity code never reads it),
and the base entity's attribute dictionary
(`super().extra_state_attributes`, opaque to this slice). -/
structure OmniLogicWaterHeaterEntity where
  data : EntityIndexHeater
  bow_id : Int
  system_id : Int
  heater_equipment_ids : List Int
  coordinator_equip : Int → EntityIndexHeaterEquip
  system : MSPSystem
  base_attributes : PyDict

/-- `_attr_temperature_unit = UnitOfTemperature.FAHRENHEIT`: class
attribute, fixed by device behavior per the module docstring. -/
def attr_temperature_unit : TempUnit := TempUnit.fahrenheit

/-- `temperature_unit` property: `return self._attr_temperature_unit`. -/
def OmniLogicWaterHeaterEntity.temperature_unit
    (_ : OmniLogicWaterHeaterEntity) : TempUnit :=
  attr_temperature_unit

/-- `min_temp` property: `return self.data.msp_config.min_temp`. -/
def OmniLogicWaterHeaterEntity.min_temp (e : OmniLogicWaterHeaterEntity) : ℚ :=
  e.data.msp_config.min_temp

/-- `max_temp` property: `return self.data.msp_config.max_temp`. -/
def OmniLogicWaterHeaterEntity.max_temp (e : OmniLogicWaterHeaterEntity) : ℚ :=
  e.data.msp_config.max_temp

/-- `target_temperature` property:
`return self.data.telemetry.current_set_point`. -/
def OmniLogicWaterHeaterEntity.target_temperature
    (e : OmniLogicWaterHeaterEntity) : Option ℚ :=
  e.data.telemetry.current_set_point

/-- `current_temperature` property, parameterized by the result of
`self.get_telemetry_by_systemid(self.bow_id)` (a lookup in the
coordinator-owned mapping, defined in `entity.py` outside this slice and
treated as an oracle input here): `None` when the lookup failed, else
`validate_temperature(bow_telemetry.water_temp)`. -/
def current_temperature (bow_telemetry : Option TelemetryBoW) : Option ℚ :=
  match bow_telemetry with
  | none => none
  | some bt => validate_temperature bt.water_temp

/-- Commands the entity can issue to the external async API
(`self.coordinator.omni_api`). -/
inductive ApiCommand where
  | set_heater (bow_id system_id : Int) (temperature : Int) (unit : TempUnit)
  | set_heater_enable (bow_id system_id : Int) (enabled : Bool)
  deriving DecidableEq, Repr

/-- Opaque exception raised by a failed external API call. -/
abbrev ApiError : Type := String

/-- Result of running one entity command method: the API commands issued,
the entity state when the method finished or the exception escaped, and
the exception propagated to the caller, if any. -/
structure CallResult where
  commands : List ApiCommand
  final : OmniLogicWaterHeaterEntity
  raised : Option ApiError

/-- Modelled from the spec: `set_telemetry` (defined on the base entity in
`entity.py`, which is not part of this slice) applied to
`{"current_set_point": temperature}` — "optimistically update local
telemetry's setpoint". -/
def set_telemetry_setpoint (e : OmniLogicWaterHeaterEntity)
    (temperature : ℤ) : OmniLogicWaterHeaterEntity :=
  { e with data :=
    { e.data with telemetry :=
      { e.data.telemetry with current_set_point := some (temperature : ℚ) } } }

/-- Modelled from the spec: `set_telemetry` applied to
`{"enabled": "yes"/"no"}` — "optimistically sets local telemetry enabled
flag" (the string is coerced to a boolean by the telemetry model). -/
def set_telemetry_enabled (e : OmniLogicWaterHeaterEntity)
    (enabled : Bool) : OmniLogicWaterHeaterEntity :=
  { e with data :=
    { e.data with telemetry :=
      { e.data.telemetry with enabled := enabled } } }

/-- `async_set_temperature`: `temperature = int(kwargs[ATTR_TEMPERATURE])`,
then `await omni_api.async_set_heater(bow_id, system_id, temperature,
unit=self.temperature_unit)`, then
`self.set_telemetry({"current_set_point": temperature})`.  The API
outcome is an input; on an exception the telemetry update is skipped and
the exception propagates. -/
def OmniLogicWaterHeaterEntity.async_set_temperature
    (e : OmniLogicWaterHeaterEntity) (requested : ℚ)
    (api : Except ApiError Unit) : CallResult :=
  let temperature := pyInt requested
  let cmd := ApiCommand.set_heater e.bow_id e.system_id temperature
    e.temperature_unit
  match api with
  | Except.error err => ⟨[cmd], e, some err⟩
  | Except.ok _ => ⟨[cmd], set_telemetry_setpoint e temperature, none⟩

/-- `async_set_operation_mode`: `match operation_mode` with cases `"on"`
and `"off"` (enable/disable command then optimistic telemetry update) and
no default case — any other mode falls through silently. -/
def OmniLogicWaterHeaterEntity.async_set_operation_mode
    (e : OmniLogicWaterHeaterEntity) (operation_mode : String)
    (api : Except ApiError Unit) : CallResult :=
  if operation_mode = "on" then
    match api with
    | Except.error err =>
        ⟨[ApiCommand.set_heater_enable e.bow_id e.system_id true], e, some err⟩
    | Except.ok _ =>
        ⟨[ApiCommand.set_heater_enable e.bow_id e.system_id true],
          set_telemetry_enabled e true, none⟩
  else if operation_mode = "off" then
    match api with
    | Except.error err =>
        ⟨[ApiCommand.set_heater_enable e.bow_id e.system_id false], e, some err⟩
    | Except.ok _ =>
        ⟨[ApiCommand.set_heater_enable e.bow_id e.system_id false],
          set_telemetry_enabled e false, none⟩
  else
    ⟨[], e, none⟩

/-- Python `str.lower()` (character-wise lowercasing; equipment names are
ASCII). -/
def pyLower (s : String) : String := ⟨s.data.map Char.toLower⟩

/-- The attribute group built for one heater-equipment record in
`extra_state_attributes`: five keys under the prefix
`omni_heater_{name.lower()}`. -/
def heater_equip_group (system_id : Int) (he : EntityIndexHeaterEquip) : PyDict :=
  let pfx := "omni_heater_" ++ pyLower he.msp_config.name
  [ (pfx ++ "_enabled", AttrValue.bool he.msp_config.enabled),
    (pfx ++ "_system_id", AttrValue.int system_id),
    (pfx ++ "_bow_id", AttrValue.int he.msp_config.bow_id),
    (pfx ++ "_state", AttrValue.str he.telemetry.state.pretty),
    (pfx ++ "_sensor_temp", AttrValue.num he.telemetry.temp) ]

/-- `extra_state_attributes` property: base attributes merged (`|`) with
the solar setpoint, then one merge per associated heater-equipment id. -/
def OmniLogicWaterHeaterEntity.extra_state_attributes
    (e : OmniLogicWaterHeaterEntity) : PyDict :=
  let base := dictMerge e.base_attributes
    [("solar_set_point", AttrValue.num e.data.msp_config.solar_set_point)]
  e.heater_equipment_ids.foldl
    (fun acc system_id =>
      dictMerge acc (heater_equip_group system_id (e.coordinator_equip system_id)))
    base

/-- The attribute groups of the associated heater equipment, in id order. -/
def OmniLogicWaterHeaterEntity.equip_groups
    (e : OmniLogicWaterHeaterEntity) : List PyDict :=
  e.heater_equipment_ids.map
    (fun system_id => heater_equip_group system_id (e.coordinator_equip system_id))

/-- Modelled from the spec: `toNative(fahrenheitValue)` of the
unit-converting heater variant described in the spec (a second
implementation of this component that is not part of this slice) — "when
metric, convert F→C and round to nearest whole degree (for clean integer
UI stepping); otherwise pass through unchanged". -/
def toNative (unit : TempUnit) (v : ℚ) : ℚ :=
  match unit with
  | TempUnit.fahrenheit => v
  | TempUnit.celsius => ((round ((v - 32) * 5 / 9) : ℤ) : ℚ)

/-! ### Concrete sample states used by counterexamples and witnesses -/

/-- A gas heater-equipment record used in concrete scenarios. -/
def sampleEquipGas : EntityIndexHeaterEquip :=
  { msp_config := { name := "Gas", enabled := true, bow_id := 1 },
    telemetry := { state := { pretty := "Heating" }, temp := 80 } }

/-- A heater entity on a system configured with `units = "Metric"`. -/
def entityMetric : OmniLogicWaterHeaterEntity :=
  { data :=
      { msp_config := { min_temp := 65, max_temp := 104, solar_set_point := 90 },
        telemetry := { current_set_point := some 85, enabled := true } },
    bow_id := 1,
    system_id := 2,
    heater_equipment_ids := [3],
    coordinator_equip := fun _ => sampleEquipGas,
    system := { units := "Metric" },
    base_attributes := [] }

/-- A heater entity on a system configured with `units = "Standard"`. -/
def entityStandard : OmniLogicWaterHeaterEntity :=
  { entityMetric with system := { units := "Standard" } }

/-! ### Association-list lemmas for the Python dict model -/

theorem dictUpdate_of_fresh (d : PyDict) (k : String) (v : AttrValue)
    (h : ∀ q ∈ d, q.1 ≠ k) : dictUpdate d k v = d ++ [(k, v)] := by
  unfold dictUpdate
  rw [if_neg]
  simp only [List.any_eq_true, beq_iff_eq, not_exists, not_and]
  intro q hq
  exact h q hq

theorem dictMerge_eq_append (g : PyDict) (d : PyDict)
    (h : ((d ++ g).map Prod.fst).Nodup) : dictMerge d g = d ++ g := by
  induction g generalizing d with
  | nil => simp [dictMerge]
  | cons p rest ih =>
    have hfresh : ∀ q ∈ d, q.1 ≠ p.1 := by
      intro q hq
      have hmem : q.1 ∈ d.map Prod.fst := List.mem_map_of_mem Prod.fst hq
      rw [List.map_append, List.nodup_append] at h
      intro heq
      exact h.2.2 hmem (by rw [heq]; simp)
    have hstep : dictUpdate d p.1 p.2 = d ++ [p] := by
      rw [dictUpdate_of_fresh d p.1 p.2 hfresh]
    have hrec : dictMerge (d ++ [p]) rest = (d ++ [p]) ++ rest := by
      apply ih
      rw [List.append_assoc, List.singleton_append]
      exact h
    calc dictMerge d (p :: rest)
        = dictMerge (dictUpdate d p.1 p.2) rest := rfl
      _ = dictMerge (d ++ [p]) rest := by rw [hstep]
      _ = (d ++ [p]) ++ rest := hrec
      _ = d ++ p :: rest := by rw [List.append_assoc, List.singleton_append]

theorem foldl_dictMerge_eq_flatten (gs : List PyDict) (d : PyDict)
    (h : ((d ++ gs.flatten).map Prod.fst).Nodup) :
    gs.foldl dictMerge d = d ++ gs.flatten := by
  induction gs generalizing d with
  | nil => simp
  | cons g rest ih =>
    have hsplit : d ++ (g :: rest).flatten = (d ++ g) ++ rest.flatten := by
      simp [List.flatten_cons, List.append_assoc]
    rw [hsplit] at h
    have hdg : ((d ++ g).map Prod.fst).Nodup := by
      rw [List.map_append, List.nodup_append] at h
      rcases h with ⟨h1, _, _⟩
      exact h1
    have hmerge : dictMerge d g = d ++ g := dictMerge_eq_append g d hdg
    calc (g :: rest).foldl dictMerge d
        = rest.foldl dictMerge (dictMerge d g) := rfl
      _ = rest.foldl dictMerge (d ++ g) := by rw [hmerge]
      _ = (d ++ g) ++ rest.flatten := ih (d ++ g) h
      _ = d ++ (g :: rest).flatten := by
          simp [List.flatten_cons, List.append_assoc]

/-! ### Claims -/

/-- C1, counterexample: on a system configured with `units = "Metric"` the
heater entity's `temperature_unit` is still Fahrenheit, not Celsius as the
claim requires. -/
theorem C1_counterexample :
    entityMetric.system.units = "Metric" ∧
    entityMetric.temperature_unit ≠ TempUnit.celsius := by
  constructor
  · rfl
  · decide

/-- C1, amended: the heater entity's `temperature_unit` is Fahrenheit for
every system configuration (the class attribute is fixed by device
behavior); the helper `get_unit_from_system` returns Celsius exactly when
the system's `units` field equals "Metric", but the heater entity does
not consult it. -/
theorem C1_thm :
    (∀ e : OmniLogicWaterHeaterEntity, e.temperature_unit = TempUnit.fahrenheit) ∧
    (∀ cfg : MSPSystem, get_unit_from_system cfg =
      (if cfg.units = "Metric" then TempUnit.celsius else TempUnit.fahrenheit)) := by
  constructor
  · intro e
    rfl
  · intro cfg
    by_cases hc : cfg.units = "Metric" <;>
      simp [get_unit_from_system, is_metric_system, hc]

/-- C2, counterexample: requesting 20.7 with a non-metric display, the
claim demands the hardware be commanded the nearest whole degree 21, but
the code truncates with `int()` and commands 20. -/
theorem C2_counterexample :
    (entityStandard.async_set_temperature (207 / 10) (Except.ok ())).commands =
      [ApiCommand.set_heater 1 2 20 TempUnit.fahrenheit] ∧
    round ((207 : ℚ) / 10) = 21 ∧
    (20 : ℤ) ≠ 21 := by
  refine ⟨?_, by norm_num [round_eq], by decide⟩
  show [ApiCommand.set_heater entityStandard.bow_id entityStandard.system_id
    (pyInt (207 / 10)) entityStandard.temperature_unit] = _
  norm_num [pyInt, entityStandard, entityMetric,
    OmniLogicWaterHeaterEntity.temperature_unit, attr_temperature_unit]

/-- C2, amended: for every requested value, `async_set_temperature`
truncates the value toward zero to a whole degree (`int()`; no
Celsius-to-Fahrenheit conversion happens, the entity's display unit being
fixed to Fahrenheit), commands the hardware with that value labeled
Fahrenheit, and after the command succeeds sets the local telemetry
setpoint to the value sent. -/
theorem C2_thm : ∀ (e : OmniLogicWaterHeaterEntity) (v : ℚ),
    (e.async_set_temperature v (Except.ok ())).commands =
      [ApiCommand.set_heater e.bow_id e.system_id (pyInt v) TempUnit.fahrenheit] ∧
    (e.async_set_temperature v (Except.ok ())).final.data.telemetry.current_set_point =
      some ((pyInt v : ℤ) : ℚ) ∧
    (e.async_set_temperature v (Except.ok ())).raised = none := by
  intro e v
  exact ⟨rfl, rfl, rfl⟩

/-- C3, counterexample: commanding `setTemperature(20)` on a metric-units
system, the value commanded to the hardware and stored in local telemetry
is 20, not 68 as the claim requires. -/
theorem C3_counterexample :
    (entityMetric.async_set_temperature 20 (Except.ok ())).commands ≠
      [ApiCommand.set_heater 1 2 68 TempUnit.fahrenheit] ∧
    (entityMetric.async_set_temperature 20 (Except.ok ())).final.data.telemetry.current_set_point ≠
      some 68 := by
  constructor
  · show [ApiCommand.set_heater entityMetric.bow_id entityMetric.system_id
      (pyInt 20) entityMetric.temperature_unit] ≠ _
    norm_num [pyInt, entityMetric,
      OmniLogicWaterHeaterEntity.temperature_unit, attr_temperature_unit]
  · show (set_telemetry_setpoint entityMetric (pyInt 20)).data.telemetry.current_set_point ≠ _
    norm_num [pyInt, set_telemetry_setpoint, entityMetric]

/-- C3, amended: after `setTemperature(20)` under a metric system the
value commanded to the hardware and stored in local telemetry is 20
(labeled Fahrenheit; no conversion occurs), and `targetTemperature()`
subsequently reports 20. -/
theorem C3_thm :
    (entityMetric.async_set_temperature 20 (Except.ok ())).commands =
      [ApiCommand.set_heater 1 2 20 TempUnit.fahrenheit] ∧
    (entityMetric.async_set_temperature 20 (Except.ok ())).final.target_temperature =
      some 20 := by
  constructor
  · show [ApiCommand.set_heater entityMetric.bow_id entityMetric.system_id
      (pyInt 20) entityMetric.temperature_unit] = _
    norm_num [pyInt, entityMetric,
      OmniLogicWaterHeaterEntity.temperature_unit, attr_temperature_unit]
  · show (set_telemetry_setpoint entityMetric (pyInt 20)).data.telemetry.current_set_point = _
    norm_num [pyInt, set_telemetry_setpoint, entityMetric]

/-- C4: `validate_temperature` returns `none` exactly when the input is
`none` or one of the sentinels -1, 255, 65535; any other value passes
through unchanged. -/
theorem C4_thm :
    validate_temperature none = none ∧
    ∀ v : ℚ, validate_temperature (some v) =
      (if v = -1 ∨ v = 255 ∨ v = 65535 then none else some v) := by
  refine ⟨rfl, ?_⟩
  intro v
  simp [validate_temperature, INVALID_TEMP_VALUES]

/-- C5: `current_temperature` returns `none` when the body-of-water
telemetry lookup failed or the looked-up water temperature is missing or
a sentinel (-1, 255, 65535); otherwise it returns the filtered value
unchanged. -/
theorem C5_thm :
    current_temperature none = none ∧
    ∀ bt : TelemetryBoW, current_temperature (some bt) =
      (if bt.water_temp = none ∨ bt.water_temp = some (-1) ∨
          bt.water_temp = some 255 ∨ bt.water_temp = some 65535
        then none else bt.water_temp) := by
  refine ⟨rfl, ?_⟩
  intro bt
  rcases hbt : bt.water_temp with _ | v
  · simp [current_temperature, validate_temperature, hbt]
  · simp only [current_temperature, validate_temperature, INVALID_TEMP_VALUES, hbt]
    simp

/-- C6, counterexample: under Celsius the spec-modelled `toNative` leaves
the stored value -40 fixed under repeated application (−40 °F is −40 °C),
contradicting the claim that repeated application never leaves the value
fixed under Celsius. -/
theorem C6_counterexample :
    toNative TempUnit.celsius (toNative TempUnit.celsius (-40)) =
      toNative TempUnit.celsius (-40) := by
  norm_num [toNative, round_eq]

/-- C6, amended: `toNative` is idempotent at every value when the display
unit is Fahrenheit (pass-through); under Celsius it is not idempotent as
a function — e.g. the stored value 70 is moved by a second application —
though isolated values near −40 (where the two scales cross) are left
fixed. -/
theorem C6_thm :
    (∀ v : ℚ, toNative TempUnit.fahrenheit (toNative TempUnit.fahrenheit v) =
      toNative TempUnit.fahrenheit v) ∧
    toNative TempUnit.celsius (toNative TempUnit.celsius 70) ≠
      toNative TempUnit.celsius 70 := by
  constructor
  · intro v
    rfl
  · norm_num [toNative, round_eq]

/-- C7, counterexample: on a metric-units system with stored minimum 65 °F
the claim requires `min_temp` to report the converted, rounded Celsius
value 18, but the entity returns the stored 65 unchanged. -/
theorem C7_counterexample :
    entityMetric.min_temp ≠
      toNative (get_unit_from_system entityMetric.system)
        entityMetric.data.msp_config.min_temp := by
  show entityMetric.data.msp_config.min_temp ≠ _
  norm_num [entityMetric, get_unit_from_system, is_metric_system,
    toNative, round_eq]

/-- C7, amended: `min_temp`, `max_temp` and `target_temperature` return
the stored Fahrenheit config/telemetry values unchanged for every system
configuration (no conversion; the entity's display unit is fixed
Fahrenheit), and `target_temperature` is `none` exactly when the
underlying setpoint is `none`. -/
theorem C7_thm : ∀ e : OmniLogicWaterHeaterEntity,
    e.min_temp = e.data.msp_config.min_temp ∧
    e.max_temp = e.data.msp_config.max_temp ∧
    e.target_temperature = e.data.telemetry.current_set_point := by
  intro e
  exact ⟨rfl, rfl, rfl⟩

/-- C8, counterexample: for the equipment named "Gas" the attribute group
exists under keys such as `omni_heater_gas_enabled`, but no key of
`extra_state_attributes` is prefixed by the bare lowercased name "gas" as
the claim requires. -/
theorem C8_counterexample :
    ("omni_heater_gas_enabled", AttrValue.bool true) ∈
      entityMetric.extra_state_attributes ∧
    ∀ p ∈ entityMetric.extra_state_attributes,
      List.isPrefixOf "gas".data p.1.data = false := by
  decide

/-- C8, amended: when no keys collide, `extraAttributes()` equals the base
attributes, followed by the heater's solar setpoint, followed by exactly
one five-entry attribute group per associated heater-equipment id
(enabled flag, system id, body-of-water id, human-readable operating
state, sensed temperature), and every key of such a group is prefixed by
`omni_heater_` followed by that equipment's lowercased name. -/
theorem C8_thm (e : OmniLogicWaterHeaterEntity)
    (h : (((e.base_attributes ++
        [("solar_set_point", AttrValue.num e.data.msp_config.solar_set_point)]) ++
        e.equip_groups.flatten).map Prod.fst).Nodup) :
    e.extra_state_attributes =
      (e.base_attributes ++
        [("solar_set_point", AttrValue.num e.data.msp_config.solar_set_point)]) ++
      e.equip_groups.flatten ∧
    ∀ sid ∈ e.heater_equipment_ids,
      ∀ p ∈ heater_equip_group sid (e.coordinator_equip sid),
        ∃ suffix : String,
          p.1 = ("omni_heater_" ++ pyLower (e.coordinator_equip sid).msp_config.name)
            ++ suffix := by
  constructor
  · have hbase : dictMerge e.base_attributes
        [("solar_set_point", AttrValue.num e.data.msp_config.solar_set_point)] =
        e.base_attributes ++
          [("solar_set_point", AttrValue.num e.data.msp_config.solar_set_point)] := by
      apply dictMerge_eq_append
      rw [List.map_append, List.nodup_append] at h
      exact h.1
    calc e.extra_state_attributes
        = e.heater_equipment_ids.foldl
            (fun acc system_id =>
              dictMerge acc
                (heater_equip_group system_id (e.coordinator_equip system_id)))
            (dictMerge e.base_attributes
              [("solar_set_point", AttrValue.num e.data.msp_config.solar_set_point)]) :=
          rfl
      _ = e.equip_groups.foldl dictMerge
            (dictMerge e.base_attributes
              [("solar_set_point", AttrValue.num e.data.msp_config.solar_set_point)]) := by
          rw [OmniLogicWaterHeaterEntity.equip_groups, List.foldl_map]
      _ = e.equip_groups.foldl dictMerge
            (e.base_attributes ++
              [("solar_set_point", AttrValue.num e.data.msp_config.solar_set_point)]) := by
          rw [hbase]
      _ = (e.base_attributes ++
            [("solar_set_point", AttrValue.num e.data.msp_config.solar_set_point)]) ++
          e.equip_groups.flatten :=
          foldl_dictMerge_eq_flatten e.equip_groups _ h
  · intro sid _ p hp
    simp only [heater_equip_group, List.mem_cons, List.mem_singleton,
      List.not_mem_nil, or_false] at hp
    rcases hp with rfl | rfl | rfl | rfl | rfl
    · exact ⟨"_enabled", rfl⟩
    · exact ⟨"_system_id", rfl⟩
    · exact ⟨"_bow_id", rfl⟩
    · exact ⟨"_state", rfl⟩
    · exact ⟨"_sensor_temp", rfl⟩

/-- C8, witness: the amended statement instantiated at the concrete
entity with one "Gas" equipment record. -/
theorem C8_witness :
    entityMetric.extra_state_attributes =
      (entityMetric.base_attributes ++
        [("solar_set_point",
          AttrValue.num entityMetric.data.msp_config.solar_set_point)]) ++
      entityMetric.equip_groups.flatten ∧
    ∀ sid ∈ entityMetric.heater_equipment_ids,
      ∀ p ∈ heater_equip_group sid (entityMetric.coordinator_equip sid),
        ∃ suffix : String,
          p.1 = ("omni_heater_" ++
            pyLower (entityMetric.coordinator_equip sid).msp_config.name) ++ suffix :=
  C8_thm entityMetric (by decide)

/-- C9: if the external API call fails, the exception propagates
(`raised`) and the local telemetry is left untouched (`final` is the
entity unchanged), for both `async_set_temperature` and the two modes of
`async_set_operation_mode`; the optimistic update happens only on the
success path. -/
theorem C9_thm : ∀ (e : OmniLogicWaterHeaterEntity) (v : ℚ) (err : ApiError),
    ((e.async_set_temperature v (Except.error err)).raised = some err ∧
     (e.async_set_temperature v (Except.error err)).final = e) ∧
    ((e.async_set_operation_mode "on" (Except.error err)).raised = some err ∧
     (e.async_set_operation_mode "on" (Except.error err)).final = e) ∧
    ((e.async_set_operation_mode "off" (Except.error err)).raised = some err ∧
     (e.async_set_operation_mode "off" (Except.error err)).final = e) ∧
    ((e.async_set_temperature v (Except.ok ())).raised = none ∧
     (e.async_set_temperature v (Except.ok ())).final =
       set_telemetry_setpoint e (pyInt v)) ∧
    ((e.async_set_operation_mode "on" (Except.ok ())).final =
       set_telemetry_enabled e true) ∧
    ((e.async_set_operation_mode "off" (Except.ok ())).final =
       set_telemetry_enabled e false) := by
  intro e v err
  refine ⟨⟨rfl, rfl⟩, ⟨rfl, rfl⟩, ⟨rfl, rfl⟩, ⟨rfl, rfl⟩, rfl, rfl⟩

/-- C10: for any operation mode other than "on" or "off",
`async_set_operation_mode` issues no hardware command and leaves the
entity (hence its local telemetry) unchanged, raising nothing — the match
has no default branch and falls through silently. -/
theorem C10_thm : ∀ (e : OmniLogicWaterHeaterEntity) (mode : String)
    (api : Except ApiError Unit), mode ≠ "on" → mode ≠ "off" →
    (e.async_set_operation_mode mode api).commands = [] ∧
    (e.async_set_operation_mode mode api).final = e ∧
    (e.async_set_operation_mode mode api).raised = none := by
  intro e mode api h1 h2
  simp [OmniLogicWaterHeaterEntity.async_set_operation_mode, h1, h2]

/-- C10, witness: the statement instantiated at the concrete entity and
the unhandled mode "heat". -/
theorem C10_witness :
    (entityMetric.async_set_operation_mode "heat" (Except.ok ())).commands = [] ∧
    (entityMetric.async_set_operation_mode "heat" (Except.ok ())).final = entityMetric ∧
    (entityMetric.async_set_operation_mode "heat" (Except.ok ())).raised = none :=
  C10_thm entityMetric "heat" (Except.ok ()) (by decide) (by decide)
